import Mathlib

/-!
Shallow embedding of three view components of the firefly-ui repository:
AccountDetails (src/modules/tokens/views/Accounts/AccountDetails.tsx),
Dashboard, and MessageDetails (src/components/MessageDetails.tsx).

JavaScript numbers that hold page indices, counts and sequence numbers are
modelled as Int; the value returned by Math.random is modelled as the exact
rational it denotes. Fetch responses are modelled as a record carrying the
ok flag and the already-parsed JSON body. React state updates are modelled
as explicit state-passing: each useEffect body becomes a pair of functions,
one for the synchronous part that runs before the request is issued and one
for the handler that runs when the response settles.
-/

namespace FireflyUI

/-- The tx field of a message header; only the type field is read by these
views (MessageDetails line 165). -/
structure ITxRef where
  type : String
deriving Repr, DecidableEq

/-- Message header fields read by Dashboard and MessageDetails. -/
structure IMessageHeader where
  id : String
  author : String
  type : String
  topic : String
  context : String
  datahash : String
  created : String
  tx : ITxRef
deriving Repr, DecidableEq

/-- A message as consumed by Dashboard and MessageDetails. -/
structure IMessage where
  header : IMessageHeader
  sequence : Int
  batchID : String
deriving Repr, DecidableEq

/-- A transaction as consumed by Dashboard. -/
structure ITransaction where
  id : String
  sequence : Int
  created : String
deriving Repr, DecidableEq

/-- A token account as consumed by AccountDetails (detailsData, lines
210-226). The tokenIndex field is optional in the source interface. -/
structure ITokenAccount where
  poolProtocolId : String
  tokenIndex : Option String
  connector : String
  key : String
  balance : String
  updated : String
deriving Repr, DecidableEq

/-- A token transfer row as consumed by AccountDetails (lines 144-196).
The from and to fields are optional in the source interface; they are named
fromAddress and toAddress here because from is reserved in Lean. -/
structure ITokenTransfer where
  txId : String
  type : String
  amount : String
  fromAddress : Option String
  toAddress : Option String
  created : String
deriving Repr, DecidableEq

/-- A settled HTTP response: the ok flag of the Response object and the
parsed JSON body. -/
structure FetchResponse (α : Type) where
  ok : Bool
  body : α
deriving Repr, DecidableEq

/-- Body shape of the paginated transfers endpoint:
a total count alongside the item list (AccountDetails lines 117-119). -/
structure TransfersBody where
  total : Int
  items : List ITokenTransfer
deriving Repr, DecidableEq

/-- PAGE_LIMITS constant of AccountDetails (line 46). -/
def PAGE_LIMITS : List Int := [5, 10]

/-- The useState slices of the AccountDetails component (lines 54-59). -/
structure AccountDetailsState where
  loading : Bool
  tokenAccount : Option ITokenAccount
  tokenTransfers : List ITokenTransfer
  tokenTransfersTotal : Int
  currentPage : Int
  rowsPerPage : Int
deriving Repr, DecidableEq

/-- Initial AccountDetails state: loading false, no account, no transfers,
total 0, page 0, rowsPerPage PAGE_LIMITS[0] = 5 (lines 54-59). -/
def initialState : AccountDetailsState :=
  { loading := false
    tokenAccount := none
    tokenTransfers := []
    tokenTransfersTotal := 0
    currentPage := 0
    rowsPerPage := 5 }

/-- handleChangePage (AccountDetails lines 61-69): an early return leaves the
state unchanged when newPage > currentPage and
rowsPerPage * (currentPage + 1) >= tokenTransfersTotal; otherwise
setCurrentPage(newPage). -/
def handleChangePage (s : AccountDetailsState) (newPage : Int) :
    AccountDetailsState :=
  if newPage > s.currentPage ∧
      s.rowsPerPage * (s.currentPage + 1) ≥ s.tokenTransfersTotal then
    s
  else
    { s with currentPage := newPage }

/-- handleChangeRowsPerPage (AccountDetails lines 71-76):
setCurrentPage(0) then setRowsPerPage(+event.target.value). -/
def handleChangeRowsPerPage (s : AccountDetailsState) (n : Int) :
    AccountDetailsState :=
  { s with currentPage := 0, rowsPerPage := n }

/-- The limit and skip query parameters of the transfers fetch URL
(AccountDetails lines 110-114): limit = rowsPerPage,
skip = rowsPerPage * currentPage. -/
structure TransfersQuery where
  limit : Int
  skip : Int
deriving Repr, DecidableEq

/-- Query parameters the transfers useEffect puts in its URL for a given
state (AccountDetails lines 110-114). -/
def transfersEffectQuery (s : AccountDetailsState) : TransfersQuery :=
  { limit := s.rowsPerPage, skip := s.rowsPerPage * s.currentPage }

/-- Synchronous prefix of the account useEffect (lines 92-93):
setLoading(true) before the fetch is issued. -/
def accountEffectStart (s : AccountDetailsState) : AccountDetailsState :=
  { s with loading := true }

/-- Handler of the account useEffect once the response settles (lines
97-106): on ok, setTokenAccount(json[0]) where indexing an empty array
yields undefined, modelled by List.head?; on failure only a console log;
the finally clause runs setLoading(false) in both cases. -/
def accountEffectSettle (s : AccountDetailsState)
    (resp : FetchResponse (List ITokenAccount)) : AccountDetailsState :=
  let s1 := if resp.ok then { s with tokenAccount := resp.body.head? } else s
  { s1 with loading := false }

/-- Synchronous prefix of the transfers useEffect (lines 109-114): nothing
runs before the fetch is issued; in particular setLoading(true) is absent. -/
def transfersEffectStart (s : AccountDetailsState) : AccountDetailsState :=
  s

/-- Handler of the transfers useEffect once the response settles (lines
115-126): on ok, setTokenTransfersTotal(json.total) and
setTokenTransfers(json.items); the finally clause runs setLoading(false)
in both cases. -/
def transfersEffectSettle (s : AccountDetailsState)
    (resp : FetchResponse TransfersBody) : AccountDetailsState :=
  let s1 :=
    if resp.ok then
      { s with
        tokenTransfersTotal := resp.body.total
        tokenTransfers := resp.body.items }
    else s
  { s1 with loading := false }

/-- The three render outcomes of AccountDetails: the CircularProgress box
when loading (lines 198-204), the empty fragment when tokenAccount is
undefined (lines 206-208), and the full details page otherwise, which shows
the empty-state message exactly when the transfers list is empty (lines
296-311). No error-message outcome exists in the source. -/
inductive AccountDetailsView
  | spinner
  | emptyFragment
  | details (account : ITokenAccount) (transfersEmpty : Bool)
deriving Repr, DecidableEq

/-- Render function of AccountDetails (lines 198-316). -/
def renderAccountDetails (s : AccountDetailsState) : AccountDetailsView :=
  if s.loading then
    .spinner
  else
    match s.tokenAccount with
    | none => .emptyFragment
    | some a => .details a s.tokenTransfers.isEmpty

/-- C1: a page-change request is rejected (state unchanged, in particular
currentPage unchanged) exactly under the guard
newPage > currentPage and rowsPerPage * (currentPage + 1) >= totalCount;
otherwise currentPage becomes newPage while the other fields are untouched.
Concretely, with rowsPerPage 5, currentPage 0, totalCount 7 the request for
page 1 is accepted, and with currentPage 1, totalCount 7 the request for
page 2 is rejected. -/
theorem C1_handleChangePage_guard (s : AccountDetailsState) (next : Int) :
    ((handleChangePage s next).currentPage =
      if next > s.currentPage ∧
          s.rowsPerPage * (s.currentPage + 1) ≥ s.tokenTransfersTotal then
        s.currentPage
      else next)
    ∧ (handleChangePage s next).rowsPerPage = s.rowsPerPage
    ∧ (handleChangePage s next).tokenTransfersTotal = s.tokenTransfersTotal
    ∧ (handleChangePage
        { initialState with
            currentPage := 0, rowsPerPage := 5, tokenTransfersTotal := 7 }
        1).currentPage = 1
    ∧ (handleChangePage
        { initialState with
            currentPage := 1, rowsPerPage := 5, tokenTransfersTotal := 7 }
        2).currentPage = 1 := by
  refine ⟨?_, ?_, ?_, by decide, by decide⟩ <;>
    · unfold handleChangePage
      split <;> simp_all

/-- The useState slices of the Dashboard component (part_000 lines 38-41). -/
structure DashboardState where
  loading : Bool
  messages : List IMessage
  txSequence : List ITransaction
  transactions : List ITransaction
deriving Repr, DecidableEq

/-- Initial Dashboard state (part_000 lines 38-41). -/
def initialDashboardState : DashboardState :=
  { loading := false, messages := [], txSequence := [], transactions := [] }

/-- Synchronous prefix of the Dashboard useEffect (part_000 line 45):
setLoading(true) before the Promise.all of the three fetches. -/
def dashboardEffectStart (s : DashboardState) : DashboardState :=
  { s with loading := true }

/-- Handler of the Dashboard useEffect once all three responses settle
(part_000 lines 55-65): only when messageResponse.ok and
txSequenceResponse.ok and txResponse.ok all hold are setMessages,
setTransactions and setTxSequence run; the finally clause runs
setLoading(false) in both cases. -/
def dashboardEffectSettle (s : DashboardState)
    (messageResponse : FetchResponse (List IMessage))
    (txSequenceResponse : FetchResponse (List ITransaction))
    (txResponse : FetchResponse (List ITransaction)) : DashboardState :=
  let s1 :=
    if messageResponse.ok ∧ txSequenceResponse.ok ∧ txResponse.ok then
      { s with
        messages := messageResponse.body
        transactions := txResponse.body
        txSequence := txSequenceResponse.body }
    else s
  { s1 with loading := false }

/-- A concrete message used in counterexamples and witnesses. -/
def msgEx : IMessage :=
  { header :=
      { id := "m1"
        author := "did:firefly:org/a"
        type := "broadcast"
        topic := "default"
        context := "c1"
        datahash := "0xabc"
        created := "2021-07-01T00:00:00Z"
        tx := { type := "pin" } }
    sequence := 42
    batchID := "b1" }

/-- A concrete transaction used in counterexamples and witnesses. -/
def txEx : ITransaction :=
  { id := "t1", sequence := 7, created := "2021-07-01T00:00:00Z" }

/-- C2 counterexample: with the message fetch and the time-windowed
transaction fetch succeeding (carrying data) and the sequence probe failing,
the code leaves every state slice empty, including those of the successful
responses, refuting the claim that each successful response still populates
its own state; loading is cleared. -/
theorem C2_counterexample :
    (dashboardEffectSettle (dashboardEffectStart initialDashboardState)
        { ok := true, body := [msgEx] }
        { ok := false, body := [] }
        { ok := true, body := [txEx] }).messages = []
    ∧ (dashboardEffectSettle (dashboardEffectStart initialDashboardState)
        { ok := true, body := [msgEx] }
        { ok := false, body := [] }
        { ok := true, body := [txEx] }).messages ≠ [msgEx]
    ∧ (dashboardEffectSettle (dashboardEffectStart initialDashboardState)
        { ok := true, body := [msgEx] }
        { ok := false, body := [] }
        { ok := true, body := [txEx] }).transactions = []
    ∧ (dashboardEffectSettle (dashboardEffectStart initialDashboardState)
        { ok := true, body := [msgEx] }
        { ok := false, body := [] }
        { ok := true, body := [txEx] }).loading = false := by
  refine ⟨by decide, ?_, by decide, by decide⟩
  decide

/-- C2 amended: when the three concurrent fetches settle and at least one
response is not ok, none of the three state slices is populated — each
keeps its previous (empty default) value, including those whose responses
succeeded — and the loading flag is cleared; when all three are ok, every
slice is populated from its response and loading is cleared as well. -/
theorem C2_dashboard_settle (s : DashboardState)
    (r1 : FetchResponse (List IMessage))
    (r2 r3 : FetchResponse (List ITransaction))
    (h : ¬(r1.ok ∧ r2.ok ∧ r3.ok)) :
    dashboardEffectSettle s r1 r2 r3 = { s with loading := false }
    ∧ ∀ s1 : DashboardState, (dashboardEffectSettle s1 r1 r2 r3).loading = false := by
  constructor
  · unfold dashboardEffectSettle
    simp [h]
  · intro s1
    unfold dashboardEffectSettle
    split <;> rfl

/-- C2 witness: the amended theorem applied at the counterexample scenario. -/
theorem C2_dashboard_settle_witness :
    dashboardEffectSettle (dashboardEffectStart initialDashboardState)
        { ok := true, body := [msgEx] }
        { ok := false, body := [] }
        { ok := true, body := [txEx] }
      = { dashboardEffectStart initialDashboardState with loading := false } :=
  (C2_dashboard_settle (dashboardEffectStart initialDashboardState)
      { ok := true, body := [msgEx] }
      { ok := false, body := [] }
      { ok := true, body := [txEx] } (by decide)).1

/-- C3: changing the page size to any allowed value n resets currentPage to
0, sets rowsPerPage to n, and the transfers useEffect that the state change
re-runs puts limit = n and skip = n * 0 = 0 in its URL. -/
theorem C3_handleChangeRowsPerPage (s : AccountDetailsState) (n : Int)
    (h : n ∈ PAGE_LIMITS) :
    (handleChangeRowsPerPage s n).currentPage = 0
    ∧ (handleChangeRowsPerPage s n).rowsPerPage = n
    ∧ transfersEffectQuery (handleChangeRowsPerPage s n)
        = { limit := n, skip := 0 } := by
  refine ⟨rfl, rfl, ?_⟩
  simp [transfersEffectQuery, handleChangeRowsPerPage]

/-- C3 witness: the theorem applied at the initial state and page size 10. -/
theorem C3_handleChangeRowsPerPage_witness :
    (handleChangeRowsPerPage initialState 10).currentPage = 0
    ∧ (handleChangeRowsPerPage initialState 10).rowsPerPage = 10
    ∧ transfersEffectQuery (handleChangeRowsPerPage initialState 10)
        = { limit := 10, skip := 0 } :=
  C3_handleChangeRowsPerPage initialState 10 (by decide)

/-- C4 counterexample: tokenTransfersTotal starts at 0, yet before any
response has arrived a forward page advance can be accepted: from the
initial state the request for page -2 is accepted (it is not an advance),
and from the resulting state, still with total 0, the request for page 5 —
a forward advance past the current value — is also accepted, because the
guard product 5 * (-2 + 1) = -5 is below 0. -/
theorem C4_counterexample :
    initialState.tokenTransfersTotal = 0
    ∧ (handleChangePage initialState (-2)).currentPage = -2
    ∧ (handleChangePage initialState (-2)).tokenTransfersTotal = 0
    ∧ (handleChangePage (handleChangePage initialState (-2)) 5).currentPage
        = 5 := by
  decide

/-- C4 amended: tokenTransfersTotal is initialized to 0, and while it is 0
every forward page advance from a state whose currentPage is at least -1 —
in particular from any state with a nonnegative currentPage, such as the
initial one — is rejected, the state being left unchanged; states with
currentPage below -1 (reachable only through a negative page request) can
accept a forward advance. -/
theorem C4_guard_before_data (s : AccountDetailsState) (next : Int)
    (htotal : s.tokenTransfersTotal = 0) (hrows : 0 ≤ s.rowsPerPage)
    (hpage : -1 ≤ s.currentPage) (hnext : s.currentPage < next) :
    handleChangePage s next = s ∧ initialState.tokenTransfersTotal = 0 := by
  refine ⟨?_, rfl⟩
  have hprod : 0 ≤ s.rowsPerPage * (s.currentPage + 1) :=
    mul_nonneg hrows (by omega)
  unfold handleChangePage
  rw [if_pos ⟨hnext, by omega⟩]

/-- C4 witness: the amended theorem applied at the initial state with a
request for page 1. -/
theorem C4_guard_before_data_witness :
    handleChangePage initialState 1 = initialState
    ∧ initialState.tokenTransfersTotal = 0 :=
  C4_guard_before_data initialState 1 rfl (by decide) (by decide) (by decide)

/-- C5: the two fetch effects of AccountDetails share the one loading flag;
only the account effect sets it true before its request (the transfers
effect body changes nothing before its fetch, so it never sets the flag
true), and the settling of the transfers fetch — regardless of outcome —
clears the shared flag even when it runs right after the account effect
started and the account fetch is still outstanding; the account settle
clears it too. -/
theorem C5_shared_loading_flag (s : AccountDetailsState)
    (resp : FetchResponse TransfersBody) :
    (accountEffectStart s).loading = true
    ∧ transfersEffectStart s = s
    ∧ (transfersEffectSettle
        (transfersEffectStart (accountEffectStart s)) resp).loading = false
    ∧ ∀ r : FetchResponse (List ITokenAccount),
        (accountEffectSettle s r).loading = false := by
  refine ⟨rfl, rfl, ?_, ?_⟩
  · unfold transfersEffectSettle
    split <;> rfl
  · intro r
    unfold accountEffectSettle
    split <;> rfl

/-- C7: when the token-account fetch settles ok with an empty list body,
tokenAccount is set to the head of the empty list, hence stays undefined,
loading is cleared, and the component renders the empty fragment — not the
spinner, not the details page, and no error outcome exists in the render
type at all. -/
theorem C7_absent_account_blank (s : AccountDetailsState)
    (resp : FetchResponse (List ITokenAccount))
    (hok : resp.ok = true) (hbody : resp.body = []) :
    (accountEffectSettle s resp).tokenAccount = none
    ∧ (accountEffectSettle s resp).loading = false
    ∧ renderAccountDetails (accountEffectSettle s resp)
        = AccountDetailsView.emptyFragment := by
  have h1 : accountEffectSettle s resp
      = { s with tokenAccount := none, loading := false } := by
    unfold accountEffectSettle
    rw [if_pos hok, hbody]
    rfl
  rw [h1]
  exact ⟨rfl, rfl, rfl⟩

/-- C7 witness: the theorem applied at the initial state with an ok
response carrying the empty list. -/
theorem C7_absent_account_blank_witness :
    (accountEffectSettle initialState { ok := true, body := [] }).tokenAccount
        = none
    ∧ (accountEffectSettle initialState { ok := true, body := [] }).loading
        = false
    ∧ renderAccountDetails
        (accountEffectSettle initialState { ok := true, body := [] })
        = AccountDetailsView.emptyFragment :=
  C7_absent_account_blank initialState { ok := true, body := [] } rfl rfl

/-- C10: handleChangePage has no lower bound on the target page: whenever
next is at most currentPage the request is accepted and currentPage becomes
next, negative values included; and in any state with a negative
currentPage and a positive rowsPerPage, the transfers useEffect issues its
fetch with a negative skip parameter rowsPerPage * currentPage. -/
theorem C10_no_lower_bound (s : AccountDetailsState) (next : Int) :
    (next ≤ s.currentPage → (handleChangePage s next).currentPage = next)
    ∧ (s.currentPage < 0 → 0 < s.rowsPerPage →
        (transfersEffectQuery s).skip < 0) := by
  constructor
  · intro hle
    unfold handleChangePage
    rw [if_neg (by omega)]
  · intro hneg hpos
    have : s.rowsPerPage * s.currentPage < 0 := mul_neg_of_pos_of_neg hpos hneg
    simpa [transfersEffectQuery] using this

/-- C10 witness: from the initial state the request for page -3 is accepted,
and the state it produces issues a transfers fetch with skip 5 * -3 = -15,
which is negative. -/
theorem C10_no_lower_bound_witness :
    (handleChangePage initialState (-3)).currentPage = -3
    ∧ (transfersEffectQuery (handleChangePage initialState (-3))).skip < 0 := by
  refine ⟨(C10_no_lower_bound initialState (-3)).1 (by decide), ?_⟩
  exact (C10_no_lower_bound (handleChangePage initialState (-3)) 0).2
    (by decide) (by decide)

/-- The icon components bound in transferIconMap (AccountDetails lines
29-31, 129-133). -/
inductive TransferIcon
  | FireIcon
  | StamperIcon
  | SwapHorizontalIcon
deriving Repr, DecidableEq

/-- transferIconMap (AccountDetails lines 129-133): a plain object literal
with exactly the keys burn, mint, transfer; a JavaScript property lookup on
any other key yields undefined, modelled by none. -/
def transferIconMap (ty : String) : Option TransferIcon :=
  if ty = "burn" then some .FireIcon
  else if ty = "mint" then some .StamperIcon
  else if ty = "transfer" then some .SwapHorizontalIcon
  else none

/-- Icon placed in the first cell of a transfers table row
(AccountDetails line 157): transferIconMap[tokenTransfer.type]. -/
def tokenTransferRecordIcon (tr : ITokenTransfer) : Option TransferIcon :=
  transferIconMap tr.type

/-- C8: the first-cell icon lookup yields undefined for every transfer type
outside the keys mint, burn, transfer — no fallback branch exists — while
each of the three known types maps to its fixed icon. -/
theorem C8_icon_lookup (tr : ITokenTransfer)
    (h : tr.type ∉ (["mint", "burn", "transfer"] : List String)) :
    tokenTransferRecordIcon tr = none
    ∧ transferIconMap "burn" = some TransferIcon.FireIcon
    ∧ transferIconMap "mint" = some TransferIcon.StamperIcon
    ∧ transferIconMap "transfer" = some TransferIcon.SwapHorizontalIcon := by
  simp only [List.mem_cons, List.mem_singleton, not_or] at h
  obtain ⟨h1, h2, h3⟩ := h
  refine ⟨?_, rfl, rfl, rfl⟩
  simp [tokenTransferRecordIcon, transferIconMap, h1, h2, h3]

/-- C8 witness: the theorem applied at a concrete transfer of type
approval, which is none of the three keys. -/
theorem C8_icon_lookup_witness :
    tokenTransferRecordIcon
        { txId := "t9", type := "approval", amount := "1"
          fromAddress := none, toAddress := none
          created := "2021-07-01T00:00:00Z" } = none
    ∧ transferIconMap "burn" = some TransferIcon.FireIcon
    ∧ transferIconMap "mint" = some TransferIcon.StamperIcon
    ∧ transferIconMap "transfer" = some TransferIcon.SwapHorizontalIcon :=
  C8_icon_lookup
    { txId := "t9", type := "approval", amount := "1"
      fromAddress := none, toAddress := none
      created := "2021-07-01T00:00:00Z" } (by decide)

/-- The useState slices of the MessageDetails component (MessageDetails
lines 31-32): the loading flag and the resolved transaction id, initially
undefined. -/
structure MessageDetailsState where
  loading : Bool
  txId : Option String
deriving Repr, DecidableEq

/-- Initial MessageDetails state (lines 31-32). -/
def initialMessageDetailsState : MessageDetailsState :=
  { loading := false, txId := none }

/-- Body shape of the batches endpoint: the payload carries an embedded
transaction id (MessageDetails lines 51-52). -/
structure IBatch where
  payloadTxId : String
deriving Repr, DecidableEq

/-- Handler of the MessageDetails useEffect once the batch response settles
(lines 49-57): on ok, setTxId(batch.payload.tx.id); the finally clause runs
setLoading(false) in both cases. -/
def batchEffectSettle (s : MessageDetailsState) (resp : FetchResponse IBatch) :
    MessageDetailsState :=
  let s1 := if resp.ok then { s with txId := some resp.body.payloadTxId } else s
  { s1 with loading := false }

/-- The navigation action of the viewTx button (MessageDetails lines
96-100): history.push to the transaction detail route with the current
message and the open flag as navigation payload. -/
structure NavAction where
  route : String
  message : IMessage
  openFlag : Bool
deriving Repr, DecidableEq

/-- Rendered content of the Pinned cell: the localized indicator text and
the optional navigation action. -/
structure PinnedCellView where
  text : String
  navAction : Option NavAction
deriving Repr, DecidableEq

/-- The pinned render helper (MessageDetails lines 81-107), applied in the
render at line 165 to message.header.tx.type and the txId state. The
indicator text is t(yes) exactly when txType equals the literal pin,
otherwise t(no); the viewTx button is guarded by JavaScript truthiness of
txId, so it is rendered exactly when txId is defined and nonempty, and it
pushes the route /transactions/ followed by txId, carrying the message and
the open flag. -/
def pinned (t : String → String) (message : IMessage) (openFlag : Bool)
    (txType : String) (txId : Option String) : PinnedCellView :=
  { text := if txType = "pin" then t "yes" else t "no"
    navAction :=
      match txId with
      | none => none
      | some i =>
        if i = "" then none
        else
          some { route := "/transactions/" ++ i
                 message := message
                 openFlag := openFlag } }

/-- C6: the Pinned cell shows the localized yes exactly when the message
transaction type is the literal pin and the localized no otherwise; the
navigation action is rendered exactly when a resolved (truthy) transaction
id is available, and then targets the transaction detail route carrying the
message and the open flag; with no resolved id the cell has no navigation
action. -/
theorem C6_pinned_cell (t : String → String) (msg : IMessage) (o : Bool)
    (txId : Option String) :
    (msg.header.tx.type = "pin" →
      (pinned t msg o msg.header.tx.type txId).text = t "yes")
    ∧ (msg.header.tx.type ≠ "pin" →
      (pinned t msg o msg.header.tx.type txId).text = t "no")
    ∧ ((pinned t msg o msg.header.tx.type txId).navAction.isSome
        ↔ ∃ i, txId = some i ∧ i ≠ "")
    ∧ (∀ i, txId = some i → i ≠ "" →
        (pinned t msg o msg.header.tx.type txId).navAction
          = some { route := "/transactions/" ++ i
                   message := msg
                   openFlag := o })
    ∧ (txId = none →
        (pinned t msg o msg.header.tx.type txId).navAction = none) := by
  refine ⟨fun h => by simp [pinned, h], fun h => by simp [pinned, h],
    ?_, ?_, ?_⟩
  · cases txId with
    | none => simp [pinned]
    | some i =>
      by_cases hi : i = "" <;> simp [pinned, hi]
  · intro i hi hne
    subst hi
    simp [pinned, hne]
  · intro h
    subst h
    simp [pinned]

/-- C6 witness: the theorem applied with the identity as localization, the
concrete pinned message msgEx (whose header.tx.type is pin) and no resolved
transaction id: the cell text is yes and there is no navigation action. -/
theorem C6_pinned_cell_witness :
    msgEx.header.tx.type = "pin"
    ∧ (pinned (fun k => k) msgEx true msgEx.header.tx.type none).text = "yes"
    ∧ (pinned (fun k => k) msgEx true msgEx.header.tx.type none).navAction
        = none := by
  have h := C6_pinned_cell (fun k => k) msgEx true none
  exact ⟨rfl, h.1 rfl, h.2.2.2.2 rfl⟩

/-- C9 model of the random source: the exact rational value returned by
Math.random, lying in the interval from 0 inclusive to 1 exclusive. The
networkMembers summary value (part_000 lines 141-146) is
Math.floor(Math.random() * 1000). -/
def networkMembersValue (r : ℚ) : ℤ := ⌊r * 1000⌋

/-- The messages summary counter (part_000 lines 148-151):
messages[0].sequence when the list is nonempty, else 0. -/
def messagesSummaryValue (messages : List IMessage) : Int :=
  match messages with
  | [] => 0
  | m :: _ => m.sequence

/-- The transactions summary counter (part_000 lines 153-157):
txSequence[0].sequence when the list is nonempty, else 0. -/
def txSummaryValue (txSequence : List ITransaction) : Int :=
  match txSequence with
  | [] => 0
  | tx :: _ => tx.sequence

/-- The three summary panels of the Dashboard (part_000 lines 141-158), as
a function of the random draw and the fetched data. -/
structure DashboardSummaries where
  networkMembers : ℤ
  messagesCount : Int
  transactionsCount : Int
deriving Repr, DecidableEq

/-- The Dashboard summary row (part_000 lines 141-158). -/
def dashboardSummaries (r : ℚ) (messages : List IMessage)
    (txSequence : List ITransaction) : DashboardSummaries :=
  { networkMembers := networkMembersValue r
    messagesCount := messagesSummaryValue messages
    transactionsCount := txSummaryValue txSequence }

/-- C9: for every random draw in the unit interval the networkMembers
counter is an integer between 0 and 999; it is independent of every fetched
list (two summary rows built from the same draw and arbitrary different
fetch results agree on it); and two renders with identical fetch results
can display different networkMembers values, so the summary row is not a
deterministic function of the fetched data. -/
theorem C9_networkMembers_random (r : ℚ) (h0 : 0 ≤ r) (h1 : r < 1) :
    0 ≤ networkMembersValue r
    ∧ networkMembersValue r ≤ 999
    ∧ (∀ ms ms2 ts ts2,
        (dashboardSummaries r ms ts).networkMembers
          = (dashboardSummaries r ms2 ts2).networkMembers)
    ∧ (∃ r1 r2 : ℚ, 0 ≤ r1 ∧ r1 < 1 ∧ 0 ≤ r2 ∧ r2 < 1 ∧ ∀ ms ts,
        (dashboardSummaries r1 ms ts).networkMembers
          ≠ (dashboardSummaries r2 ms ts).networkMembers) := by
  have hlow : 0 ≤ networkMembersValue r := by
    rw [networkMembersValue, Int.le_floor]
    push_cast
    positivity
  have hup : networkMembersValue r ≤ 999 := by
    have : networkMembersValue r < 1000 := by
      rw [networkMembersValue, Int.floor_lt]
      push_cast
      nlinarith
    omega
  refine ⟨hlow, hup, fun ms ms2 ts ts2 => rfl, 0, 1/2, by norm_num, by norm_num,
    by norm_num, by norm_num, fun ms ts => ?_⟩
  have hz : networkMembersValue 0 = 0 := by
    rw [networkMembersValue]
    norm_num
  have hh : networkMembersValue (1/2) = 500 := by
    rw [networkMembersValue]
    have : (1 / 2 : ℚ) * 1000 = ((500 : ℤ) : ℚ) := by norm_num
    rw [this, Int.floor_intCast]
  simp only [dashboardSummaries, hz, hh]
  decide

/-- C9 witness: the theorem applied at the draw one half, whose
networkMembers value is 500, within bounds. -/
theorem C9_networkMembers_random_witness :
    0 ≤ networkMembersValue (1/2)
    ∧ networkMembersValue (1/2) ≤ 999
    ∧ (∀ ms ms2 ts ts2,
        (dashboardSummaries (1/2) ms ts).networkMembers
          = (dashboardSummaries (1/2) ms2 ts2).networkMembers)
    ∧ (∃ r1 r2 : ℚ, 0 ≤ r1 ∧ r1 < 1 ∧ 0 ≤ r2 ∧ r2 < 1 ∧ ∀ ms ts,
        (dashboardSummaries r1 ms ts).networkMembers
          ≠ (dashboardSummaries r2 ms ts).networkMembers) :=
  C9_networkMembers_random (1/2) (by norm_num) (by norm_num)

end FireflyUI
